import Mathlib

/-!
Shallow embedding of `src/main.py` (Ozon seller inventory/orders export script)
and proofs about it.

Conventions of the embedding:
* Python `dict.get` with a default becomes `Option.getD`.
* Python's truthiness-based `a or b` becomes explicit helpers (`pyOrStr`,
  `pyOrNat`, `pyOrList`): an empty string, the number 0, an empty list and
  `None` are falsy.
* Python dicts used as finite maps become functions into `Option`
  (absence of a key = `none`), except where iteration order over the keys
  matters, in which case an explicit key list accompanies the lookup
  function.
* Machine-level concerns (HTTP transport, JSON decoding, retries) are
  abstracted as response-valued functions / response sequences supplied as
  parameters; the structure types mirror exactly the fields the script
  reads.
* `datetime` values are modelled as `Nat` (days); `timedelta(days=30)`
  becomes `+ 30`.
-/

namespace OzonSeller

/-- Constants from `src/main.py` lines 24-28. -/
def MAX_PRODUCT_LIST_PAGE : Nat := 1000

def MAX_INFO_BATCH : Nat := 1000

def MAX_STOCK_BATCH : Nat := 100

def MAX_ORDER_PAGE : Nat := 1000

def MAX_OFFSET : Nat := 20000

/-- Python `a or b` on optional strings: `None` and `""` are falsy. -/
def pyOrStr (a b : Option String) : Option String :=
  match a with
  | some v => if v = "" then b else some v
  | none => b

/-- Python `a or b` on optional numbers: `None` and `0` are falsy. -/
def pyOrNat (a b : Option Nat) : Option Nat :=
  match a with
  | some v => if v = 0 then b else some v
  | none => b

/-- Python `a or b` on optional lists: `None` and `[]` are falsy. -/
def pyOrList {α : Type} (a b : Option (List α)) : Option (List α) :=
  match a with
  | some l => if l.isEmpty then b else some l
  | none => b

/-- A resolved stock record as stored in the inventory map
(`src/main.py` lines 182-186): all three fields present. -/
structure StockRecord where
  available_stock_count : Int
  transit_stock_count : Int
  requested_stock_count : Int
deriving DecidableEq, Repr

/-- A raw stock item as returned by `v1/analytics/stocks`
(fields the script reads; any of them may be absent). -/
structure StockItem where
  sku : Option Nat
  available_stock_count : Option Int
  transit_stock_count : Option Int
  requested_stock_count : Option Int
deriving DecidableEq, Repr

/-- The inventory map `sku -> warehouse_id -> stock record`.
Absence of an entry is meaningful (`none`). -/
def Inventory : Type := Nat → Nat → Option StockRecord

/-- `inventory.setdefault(int(sku_val), {})[int(wh_id)] = {...}`
as a pointwise update. -/
def invInsert (inv : Inventory) (sku whId : Nat) (rec : StockRecord) : Inventory :=
  fun s w => if s = sku ∧ w = whId then some rec else inv s w

/-- Processing of one stock item inside the gather loop
(`src/main.py` lines 179-186): a record with no sku is skipped; missing
count fields default to 0. -/
def processStockItem (inv : Inventory) (whId : Nat) (item : StockItem) : Inventory :=
  match item.sku with
  | none => inv
  | some s =>
      invInsert inv s whId
        { available_stock_count := item.available_stock_count.getD 0
          transit_stock_count := item.transit_stock_count.getD 0
          requested_stock_count := item.requested_stock_count.getD 0 }

/-- The `for item in stock_items` loop body folded over a page of items. -/
def processStockItems (inv : Inventory) (whId : Nat) (items : List StockItem) : Inventory :=
  items.foldl (fun acc item => processStockItem acc whId item) inv

/-- A warehouse object (fields read by the script: `warehouse_id`, `id`,
`name`). -/
structure Warehouse where
  warehouse_id : Option Nat
  id : Option Nat
  name : String
deriving DecidableEq, Repr

/-- A logistic cluster: the script only reads its `warehouses` list. -/
structure LogisticCluster where
  warehouses : List Warehouse
deriving DecidableEq, Repr

/-- A cluster: the script reads `name` and `logistic_clusters`. -/
structure Cluster where
  name : String
  logistic_clusters : List LogisticCluster
deriving DecidableEq, Repr

/-- `wh.get("warehouse_id") or wh.get("id")` (`src/main.py` line 174). -/
def warehouseIdOf (wh : Warehouse) : Option Nat :=
  pyOrNat wh.warehouse_id wh.id

/-- The warehouse-list flattening of `gather_inventory_by_warehouses`
(`src/main.py` lines 167-170): nested loops extending an accumulator. -/
def gatherWarehouses (clusters : List Cluster) : List Warehouse :=
  clusters.foldl
    (fun acc cl => cl.logistic_clusters.foldl (fun acc2 lc => acc2 ++ lc.warehouses) acc)
    []

/-- The sku-batching loop for one warehouse (`src/main.py` lines 176-186):
`for i in range(0, len(skus), MAX_STOCK_BATCH)`, fetch the stock page for
`skus[i:i+100]` and fold its items into the inventory.
`get_stocks batch whId` is the item list of the response. -/
def gatherStockBatches (get_stocks : List Nat → Nat → List StockItem) (skus : List Nat)
    (whId : Nat) (inv : Inventory) (i : Nat) : Inventory :=
  if _h : i < skus.length then
    let batch := (skus.drop i).take MAX_STOCK_BATCH
    gatherStockBatches get_stocks skus whId
      (processStockItems inv whId (get_stocks batch whId)) (i + MAX_STOCK_BATCH)
  else inv
termination_by skus.length - i
decreasing_by
  simp only [MAX_STOCK_BATCH]
  omega

/-- The stock-gathering part of `gather_inventory_by_warehouses`
(`src/main.py` lines 172-187): loop over the flattened warehouse list,
skip a warehouse with no id, and batch-fetch stocks per warehouse. -/
def gather_inventory (get_stocks : List Nat → Nat → List StockItem) (skus : List Nat)
    (clusters : List Cluster) : Inventory :=
  (gatherWarehouses clusters).foldl
    (fun inv wh =>
      match warehouseIdOf wh with
      | none => inv
      | some whId => gatherStockBatches get_stocks skus whId inv 0)
    (fun _ _ => none)

/-- Product metadata stored under a sku (`src/main.py` line 164). -/
structure MetaEntry where
  name : String
  offer_id : String
deriving DecidableEq, Repr

/-- `product_meta.get(sku, {}).get("name", "")`. -/
def metaNameOf (meta : Nat → Option MetaEntry) (sku : Nat) : String :=
  ((meta sku).map (fun m => m.name)).getD ""

/-- `product_meta.get(sku, {}).get("offer_id", "")`. -/
def metaOfferOf (meta : Nat → Option MetaEntry) (sku : Nat) : String :=
  ((meta sku).map (fun m => m.offer_id)).getD ""

/-- `skus_in_wh` (`src/main.py` lines 227-230): the product skus that have a
stock record for this warehouse.  `metaKeys` is the key list of the
`product_meta` dict. -/
def skusInWh (metaKeys : List Nat) (inv : Inventory) (whId : Nat) : List Nat :=
  metaKeys.filter (fun sku => (inv sku whId).isSome)

/-- One product row appended to the sheet (`src/main.py` lines 249-261).
`sku` records which sku the row was generated from; `highlighted` is
whether the red fill was applied (lines 258-260). -/
structure ProductRow where
  sku : Nat
  name : String
  offer_id : String
  available : Int
  transit : Int
  requested : Int
  highlighted : Bool
deriving DecidableEq, Repr

/-- `inventory.get(sku, {}).get(int(wh_id), {}).get(field, 0)`. -/
def stockFieldOf (inv : Inventory) (sku whId : Nat) (f : StockRecord → Int) : Int :=
  ((inv sku whId).map f).getD 0

/-- The row built for one sku of one warehouse
(`src/main.py` lines 249-260). -/
def buildProductRow (meta : Nat → Option MetaEntry) (inv : Inventory) (whId sku : Nat) :
    ProductRow :=
  { sku := sku
    name := metaNameOf meta sku
    offer_id := metaOfferOf meta sku
    available := stockFieldOf inv sku whId (fun r => r.available_stock_count)
    transit := stockFieldOf inv sku whId (fun r => r.transit_stock_count)
    requested := stockFieldOf inv sku whId (fun r => r.requested_stock_count)
    highlighted := stockFieldOf inv sku whId (fun r => r.available_stock_count) = 0 }

/-- The product rows rendered for one warehouse
(`src/main.py` lines 227-261): filter to skus with a stock record, sort by
`offer_id`, then emit one row per sku. -/
def warehouseRows (metaKeys : List Nat) (meta : Nat → Option MetaEntry) (inv : Inventory)
    (whId : Nat) : List ProductRow :=
  let skus := skusInWh metaKeys inv whId
  let sorted_skus := skus.mergeSort (fun a b => metaOfferOf meta a ≤ metaOfferOf meta b)
  sorted_skus.map (buildProductRow meta inv whId)

/-- A row of a cluster sheet: either a bold warehouse header line or a
product row. -/
inductive SheetRow where
  | warehouseHeader (label : String)
  | productRow (r : ProductRow)
deriving DecidableEq, Repr

/-- `sum(... available_stock_count ... for sku in skus_in_wh)`
(`src/main.py` line 235). -/
def warehouseTotalStock (inv : Inventory) (whId : Nat) (skus : List Nat) : Int :=
  (skus.map (fun sku => stockFieldOf inv sku whId (fun r => r.available_stock_count))).sum

/-- All rows of the sheet for one cluster (`src/main.py` lines 222-261):
a warehouse with no id or with no recorded skus contributes nothing;
otherwise a header row followed by the product rows. -/
def clusterRows (metaKeys : List Nat) (meta : Nat → Option MetaEntry) (inv : Inventory)
    (cluster : Cluster) : List SheetRow :=
  cluster.logistic_clusters.foldl
    (fun acc lc =>
      lc.warehouses.foldl
        (fun acc2 wh =>
          match warehouseIdOf wh with
          | none => acc2
          | some whId =>
              let skus := skusInWh metaKeys inv whId
              if skus.isEmpty then acc2
              else
                acc2 ++
                  (SheetRow.warehouseHeader
                      (wh.name ++ " (total: " ++ toString (warehouseTotalStock inv whId skus) ++ ")") ::
                    (warehouseRows metaKeys meta inv whId).map SheetRow.productRow))
        acc)
    []

/-- A key of the order-summary dict: `item.get("offer_id") or item.get("sku")`
may produce a string (offer id) or a number (sku). -/
inductive SKey where
  | s (v : String)
  | n (v : Nat)
deriving DecidableEq, Repr

/-- Python truthiness of a summary key: `""` and `0` are falsy. -/
def SKey.truthy : SKey → Bool
  | .s v => v ≠ ""
  | .n v => v ≠ 0

/-- A line item of a posting (fields read at `src/main.py` lines 279-281). -/
structure OrderItem where
  offer_id : Option String
  sku : Option Nat
  quantity : Option Int
deriving DecidableEq, Repr

/-- A posting returned by `v2/posting/fbo/list`: the summary only reads its
`products` list. -/
structure Posting where
  products : List OrderItem
deriving DecidableEq, Repr

/-- `item.get("offer_id") or item.get("sku")` (`src/main.py` line 279):
an absent or empty offer id falls through to the sku value. -/
def itemKey (it : OrderItem) : Option SKey :=
  match it.offer_id with
  | some v => if v = "" then it.sku.map SKey.n else some (SKey.s v)
  | none => it.sku.map SKey.n

/-- One step of the summary accumulation (`src/main.py` lines 279-281):
`if sku: summary[sku] = summary.get(sku, 0) + int(item.get("quantity", 1))`.
The dict is modelled as a total function defaulting to 0. -/
def addOrderItem (m : SKey → Int) (it : OrderItem) : SKey → Int :=
  match itemKey it with
  | some k =>
      if k.truthy then fun k2 => if k2 = k then m k + it.quantity.getD 1 else m k2
      else m
  | none => m

/-- The order summary map built by `export_orders_summary_to_excel`
(`src/main.py` lines 276-281). -/
def orderSummary (orders : List Posting) : SKey → Int :=
  orders.foldl (fun m o => o.products.foldl addOrderItem m) (fun _ => 0)

/-- The per-window paging loop of `OzonClient.get_orders`
(`src/main.py` lines 112-143).  `fetch offset` is the `result` field of
the response to the page request at that offset: `none` models a `result`
that is not a list (the `isinstance` guard), `some []` an absent or empty
list.  Returns the accumulated orders and the number of page requests
issued. -/
def pagingLoop (fetch : Nat → Option (List Posting)) (offset : Nat) :
    List Posting × Nat :=
  match fetch offset with
  | none => ([], 1)
  | some result =>
      if result.isEmpty then ([], 1)
      else if result.length < MAX_ORDER_PAGE ∨ offset + result.length ≥ MAX_OFFSET then
        (result, 1)
      else
        let next := pagingLoop fetch (offset + result.length)
        (result ++ next.1, next.2 + 1)
termination_by MAX_OFFSET - offset
decreasing_by
  simp only [MAX_OFFSET, MAX_ORDER_PAGE] at *
  omega

/-- The trace of one `get_orders` run: the accumulated postings, the total
number of page requests issued, and the sub-windows iterated by the outer
loop. -/
structure OrdersRun where
  orders : List Posting
  requests : Nat
  windows : List (Nat × Nat)
deriving DecidableEq, Repr

/-- `OzonClient.get_orders` (`src/main.py` lines 105-148), time modelled in
days.  `fetch ws wt offset` is the `result` field of the response to the
page request for sub-window `[ws, wt]` at `offset`.  The outer loop slices
`[since, to]` into sub-windows of at most 30 days. -/
def get_orders (fetch : Nat → Nat → Nat → Option (List Posting)) (current_since to_ : Nat) :
    OrdersRun :=
  if current_since < to_ then
    let current_to := min to_ (current_since + 30)
    let page := pagingLoop (fun offset => fetch current_since current_to offset) 0
    let rest := get_orders fetch current_to to_
    { orders := page.1 ++ rest.orders
      requests := page.2 + rest.requests
      windows := (current_since, current_to) :: rest.windows }
  else { orders := [], requests := 0, windows := [] }
termination_by to_ - current_since
decreasing_by omega

/-- An item returned by the product endpoints: opaque payload tag. -/
structure ProdItem where
  payload : Nat
deriving DecidableEq, Repr

/-- The `result` object of a `v3/product/info/list` response. -/
structure InfoResult where
  items : Option (List ProdItem)
deriving DecidableEq, Repr

/-- A `v3/product/info/list` response: the script reads
`result.items` and a top-level `items`. -/
structure InfoResponse where
  result : Option InfoResult
  items : Option (List ProdItem)
deriving DecidableEq, Repr

/-- `data.get("result", {}).get("items") or data.get("items") or []`
(`src/main.py` line 94); the `isinstance` guard is the identity here since
the fields are typed as lists. -/
def extractInfoItems (r : InfoResponse) : List ProdItem :=
  (pyOrList (pyOrList (r.result.bind (fun res => res.items)) r.items) (some [])).getD []

/-- The batching loop of `OzonClient.get_product_info`
(`src/main.py` lines 88-96): `for i in range(0, len(ids), MAX_INFO_BATCH)`,
`chunk = ids[i:i+MAX_INFO_BATCH]`, one request per chunk.  Returns the
concatenated items and the list of id chunks sent, in request order. -/
def getProductInfoFrom (fetch : List Nat → InfoResponse) (ids : List Nat) (i : Nat) :
    List ProdItem × List (List Nat) :=
  if _h : i < ids.length then
    let chunk := (ids.drop i).take MAX_INFO_BATCH
    let rest := getProductInfoFrom fetch ids (i + MAX_INFO_BATCH)
    (extractInfoItems (fetch chunk) ++ rest.1, chunk :: rest.2)
  else ([], [])
termination_by ids.length - i
decreasing_by
  simp only [MAX_INFO_BATCH]
  omega

/-- `OzonClient.get_product_info` (`src/main.py` lines 88-96). -/
def get_product_info (fetch : List Nat → InfoResponse) (ids : List Nat) :
    List ProdItem × List (List Nat) :=
  getProductInfoFrom fetch ids 0

/-- The `result` object of a `v3/product/list` response. -/
structure ProductListResult where
  items : Option (List ProdItem)
  last_id : Option String
deriving DecidableEq, Repr

/-- A `v3/product/list` response. -/
structure ProductListResponse where
  result : Option ProductListResult
deriving DecidableEq, Repr

/-- `(data.get("result") or {}).get("items") or []` for one page. -/
def pageItemsOf (r : ProductListResponse) : List ProdItem :=
  (pyOrList ((r.result.getD { items := none, last_id := none }).items) (some [])).getD []

/-- `(data.get("result") or {}).get("last_id") or ""` for one page. -/
def pageCursorOf (r : ProductListResponse) : String :=
  (pyOrStr ((r.result.getD { items := none, last_id := none }).last_id) (some "")).getD ""

/-- The cursor loop of `OzonClient.list_products`
(`src/main.py` lines 75-86), run against a fixed sequence of server
responses consumed one per request.  `last_id` is the cursor the pending
request carries.  Returns the accumulated items and the list of cursors
sent, one per request issued.  An exhausted response sequence
(first case) is outside the behaviour the claims quantify over. -/
def listProductsLoop (responses : List ProductListResponse) (last_id : String) :
    List ProdItem × List String :=
  match responses with
  | [] => ([], [last_id])
  | r :: rest =>
      let page_items := pageItemsOf r
      let new_last_id := pageCursorOf r
      if new_last_id = "" then (page_items, [last_id])
      else
        let next := listProductsLoop rest new_last_id
        (page_items ++ next.1, last_id :: next.2)

/-- `OzonClient.list_products` (`src/main.py` lines 75-86): the loop starts
with the empty cursor. -/
def list_products (responses : List ProductListResponse) : List ProdItem × List String :=
  listProductsLoop responses ""

/-- `_require_env` (`src/main.py` lines 33-39): a `None` or empty value is
rejected. -/
def require_env (var_value : Option String) (var_name : String) : Except String String :=
  if var_value = none ∨ var_value = some "" then
    Except.error ("Missing required environment variable " ++ var_name ++
      ". Put it in your .env or shell export.")
  else Except.ok (var_value.getD "")

/-- `os.getenv("OZON_CLIENT_ID") or os.getenv("CLIENT_ID")`
(`src/main.py` line 19). -/
def resolvedClientId (env : String → Option String) : Option String :=
  pyOrStr (env "OZON_CLIENT_ID") (env "CLIENT_ID")

/-- `os.getenv("OZON_API_KEY") or os.getenv("CLIENT_TOKEN") or
os.getenv("API_KEY")` (`src/main.py` line 20). -/
def resolvedApiKey (env : String → Option String) : Option String :=
  pyOrStr (pyOrStr (env "OZON_API_KEY") (env "CLIENT_TOKEN")) (env "API_KEY")

/-- The startup sequence of `__main__` (`src/main.py` lines 303-314):
both credentials are checked before the client is constructed and before
the gather/export pipeline (which performs all HTTP requests) runs.
`pipeline client_id api_key` abstracts everything after the checks and
reports the number of requests its transport served; a failed check
yields the configuration error with zero requests issued. -/
def runMain {α : Type} (env : String → Option String)
    (pipeline : String → String → α × Nat) : Except String α × Nat :=
  match require_env (resolvedClientId env) "OZON_CLIENT_ID" with
  | Except.error e => (Except.error e, 0)
  | Except.ok client_id =>
      match require_env (resolvedApiKey env) "OZON_API_KEY" with
      | Except.error e => (Except.error e, 0)
      | Except.ok api_key =>
          let r := pipeline client_id api_key
          (Except.ok r.1, r.2)

/-! Theorems -/

/-- Helper: each paging run issues at most `(MAX_OFFSET - offset) / MAX_ORDER_PAGE + 1`
page requests, since every continuing iteration advances `offset` by at
least `MAX_ORDER_PAGE`. -/
theorem pagingLoop_requests_le (fetch : Nat → Option (List Posting)) (offset : Nat) :
    (pagingLoop fetch offset).2 ≤ (MAX_OFFSET - offset) / MAX_ORDER_PAGE + 1 := by
  refine pagingLoop.induct fetch
    (fun off => (pagingLoop fetch off).2 ≤ (MAX_OFFSET - off) / MAX_ORDER_PAGE + 1)
    ?_ ?_ ?_ ?_ offset
  · intro x h
    rw [pagingLoop, h]
    simp
  · intro x result h hemp
    rw [pagingLoop, h]
    simp [hemp]
  · intro x result h hemp hstop
    rw [pagingLoop, h]
    simp [hemp, hstop]
  · intro x result h hemp hstop ih
    rw [pagingLoop, h]
    simp only [hemp, if_false, if_neg hstop, Bool.false_eq_true]
    simp only [MAX_OFFSET, MAX_ORDER_PAGE] at *
    omega

/-- Claim C4: for every requested range with `since < to`, `get_orders`
iterates sub-windows `(current_since, min to (current_since + 30))`,
continues from `current_to`, and stops once `current_since ≥ to`; a
95-day range yields exactly the four sub-windows of 30, 30, 30 and 5
days. -/
theorem get_orders_window_iteration :
    (∀ (fetch : Nat → Nat → Nat → Option (List Posting)) (since to_ : Nat), since < to_ →
        (get_orders fetch since to_).windows =
          (since, min to_ (since + 30)) :: (get_orders fetch (min to_ (since + 30)) to_).windows) ∧
    (∀ (fetch : Nat → Nat → Nat → Option (List Posting)) (since to_ : Nat), to_ ≤ since →
        (get_orders fetch since to_).windows = []) ∧
    (∀ fetch : Nat → Nat → Nat → Option (List Posting),
        (get_orders fetch 0 95).windows = [(0, 30), (30, 60), (60, 90), (90, 95)] ∧
        ((get_orders fetch 0 95).windows.map (fun w => w.2 - w.1)) = [30, 30, 30, 5]) := by
  refine ⟨?_, ?_, ?_⟩
  · intro fetch since to_ h
    rw [get_orders]
    simp [h]
  · intro fetch since to_ h
    rw [get_orders]
    simp [Nat.not_lt.mpr h]
  · intro fetch
    have hw : (get_orders fetch 0 95).windows = [(0, 30), (30, 60), (60, 90), (90, 95)] := by
      rw [get_orders]
      norm_num
      rw [get_orders]
      norm_num
      rw [get_orders]
      norm_num
      rw [get_orders]
      norm_num
      rw [get_orders]
      norm_num
    exact ⟨hw, by rw [hw]; rfl⟩

/-- Witness for C4 at a concrete input: the first sub-window of the
95-day range. -/
theorem get_orders_window_iteration_witness :
    (get_orders (fun _ _ _ => (none : Option (List Posting))) 0 95).windows =
      (0, min 95 30) ::
        (get_orders (fun _ _ _ => (none : Option (List Posting))) (min 95 30) 95).windows :=
  get_orders_window_iteration.1 (fun _ _ _ => none) 0 95 (by norm_num)

/-- Claim C5: within a sub-window, a page whose `result` is not a
non-empty list ends the paging with no further requests; otherwise the
page is appended and the offset advances by the page length; paging also
stops as soon as a page is shorter than the 1000-item limit or the
advanced offset reaches the 20000-item ceiling; in the remaining case the
loop continues at the advanced offset. -/
theorem pagingLoop_page_transitions :
    ∀ (fetch : Nat → Option (List Posting)) (offset : Nat),
      (fetch offset = none → pagingLoop fetch offset = ([], 1)) ∧
      (fetch offset = some [] → pagingLoop fetch offset = ([], 1)) ∧
      (∀ result, fetch offset = some result → result ≠ [] →
         result.length < MAX_ORDER_PAGE ∨ offset + result.length ≥ MAX_OFFSET →
         pagingLoop fetch offset = (result, 1)) ∧
      (∀ result, fetch offset = some result → result ≠ [] →
         MAX_ORDER_PAGE ≤ result.length → offset + result.length < MAX_OFFSET →
         pagingLoop fetch offset =
           (result ++ (pagingLoop fetch (offset + result.length)).1,
            (pagingLoop fetch (offset + result.length)).2 + 1)) := by
  intro fetch offset
  refine ⟨fun h => ?_, fun h => ?_, fun result h hne hstop => ?_, fun result h hne hlen hoff => ?_⟩
  · rw [pagingLoop, h]
  · rw [pagingLoop, h]
    simp
  · rw [pagingLoop, h]
    simp only [List.isEmpty_eq_true]
    rw [if_neg hne, if_pos hstop]
  · rw [pagingLoop, h]
    simp only [List.isEmpty_eq_true]
    rw [if_neg hne, if_neg (by omega)]

/-- Witness for C5 at a concrete input: a server that never returns a
list makes the paging loop stop after one request. -/
theorem pagingLoop_page_transitions_witness :
    pagingLoop (fun _ => (none : Option (List Posting))) 0 = ([], 1) :=
  (pagingLoop_page_transitions (fun _ => none) 0).1 rfl

/-- Claim C10: `get_orders` issues only finitely many requests for every
response function: a paging run started at offset 0 issues at most 21
page requests, and the whole call issues at most 21 requests per
sub-window iterated. -/
theorem get_orders_request_bound :
    (∀ (fetch : Nat → Option (List Posting)), (pagingLoop fetch 0).2 ≤ 21) ∧
    (∀ (fetch : Nat → Nat → Nat → Option (List Posting)) (since to_ : Nat),
        (get_orders fetch since to_).requests ≤
          21 * (get_orders fetch since to_).windows.length) := by
  constructor
  · intro fetch
    have h21 := pagingLoop_requests_le fetch 0
    simp only [MAX_OFFSET, MAX_ORDER_PAGE] at h21
    omega
  · intro fetch since to_
    refine get_orders.induct fetch
      (fun s t => (get_orders fetch s t).requests ≤ 21 * (get_orders fetch s t).windows.length)
      ?_ ?_ since to_
    · intro s t hlt current_to ih
      have hct : current_to = min t (s + 30) := rfl
      rw [get_orders]
      simp only [if_pos hlt, List.length_cons]
      rw [hct] at ih
      have hp : (pagingLoop (fun offset => fetch s (min t (s + 30)) offset) 0).2 ≤ 21 := by
        have h21 := pagingLoop_requests_le (fun offset => fetch s (min t (s + 30)) offset) 0
        simp only [MAX_OFFSET, MAX_ORDER_PAGE] at h21
        omega
      omega
    · intro s t hlt
      rw [get_orders]
      simp [if_neg hlt]

/-- The contribution of one line item to the summary entry of key `k`
(0 if the item carries another key; the script's default quantity 1
otherwise). -/
def matchContribution (k : SKey) (it : OrderItem) : Int :=
  if itemKey it = some k then it.quantity.getD 1 else 0

/-- Helper: a single summary step adds exactly the item's contribution to
a truthy key. -/
theorem addOrderItem_apply (m : SKey → Int) (it : OrderItem) (k : SKey) (hk : k.truthy) :
    addOrderItem m it k = m k + matchContribution k it := by
  unfold addOrderItem matchContribution
  cases hik : itemKey it with
  | none => simp
  | some k' =>
      by_cases hk' : k'.truthy
      · simp only [hk', if_pos]
        by_cases hkk : k = k'
        · subst hkk
          simp
        · simp [hkk, Ne.symm hkk]
      · have hne : k ≠ k' := by
          intro hkk
          rw [hkk] at hk
          exact absurd hk (by simp [hk'])
        simp [hk', hne, Ne.symm hne]

/-- Helper: folding the summary step over a list of items adds the sum of
the contributions. -/
theorem foldl_addOrderItem (items : List OrderItem) (m : SKey → Int) (k : SKey)
    (hk : k.truthy) :
    (items.foldl addOrderItem m) k = m k + (items.map (matchContribution k)).sum := by
  induction items generalizing m with
  | nil => simp
  | cons it rest ih =>
      rw [List.foldl_cons, ih, addOrderItem_apply m it k hk]
      simp [add_assoc]

/-- Helper: the summary value of a truthy key is the sum of the
contributions of all line items of all postings. -/
theorem orderSummary_apply (orders : List Posting) (k : SKey) (hk : k.truthy) :
    orderSummary orders k =
      (((orders.map Posting.products).flatten).map (matchContribution k)).sum := by
  suffices h : ∀ (m : SKey → Int),
      (orders.foldl (fun m o => o.products.foldl addOrderItem m) m) k =
        m k + (((orders.map Posting.products).flatten).map (matchContribution k)).sum by
    have := h (fun _ => 0)
    simpa [orderSummary] using this
  induction orders with
  | nil => intro m; simp
  | cons o rest ih =>
      intro m
      rw [List.foldl_cons, ih, foldl_addOrderItem o.products m k hk]
      simp [add_assoc]

/-- Helper: when every item carrying key `k` has an explicit quantity, the
contribution sum is the sum of those quantities. -/
theorem sum_matchContribution_eq (k : SKey) :
    ∀ (l : List OrderItem), (∀ it ∈ l, itemKey it = some k → it.quantity.isSome) →
      (l.map (matchContribution k)).sum =
        (l.filterMap (fun it => if itemKey it = some k then it.quantity else none)).sum := by
  intro l
  induction l with
  | nil => simp
  | cons it rest ih =>
      intro h
      by_cases hik : itemKey it = some k
      · obtain ⟨q, hq⟩ := Option.isSome_iff_exists.mp (h it (by simp) hik)
        simp [matchContribution, hik, hq, ih (fun it' h1 h2 => h it' (by simp [h1]) h2)]
      · simp [matchContribution, hik, ih (fun it' h1 h2 => h it' (by simp [h1]) h2)]

/-- Claim C6: the order summary maps each (truthy) sku key to the total
ordered quantity: for every list of postings whose items carrying that key
have explicit quantities, the value under the key equals the sum of the
quantities of all line items carrying it. -/
theorem orderSummary_sku_total (orders : List Posting) (k : SKey) (hk : k.truthy)
    (hq : ∀ it ∈ (orders.map Posting.products).flatten,
        itemKey it = some k → it.quantity.isSome) :
    orderSummary orders k =
      (((orders.map Posting.products).flatten).filterMap
        (fun it => if itemKey it = some k then it.quantity else none)).sum := by
  rw [orderSummary_apply orders k hk]
  exact sum_matchContribution_eq k _ hq

/-- Concrete postings for the C6 witness: two postings, key "A" carried by
two items with quantities 2 and 3. -/
def c6orders : List Posting :=
  [{ products := [{ offer_id := some "A", sku := none, quantity := some 2 },
                  { offer_id := some "B", sku := none, quantity := some 5 }] },
   { products := [{ offer_id := some "A", sku := none, quantity := some 3 }] }]

/-- Witness for C6 at a concrete input. -/
theorem orderSummary_sku_total_witness :
    SKey.truthy (SKey.s "A") = true ∧
    orderSummary c6orders (SKey.s "A") =
      (((c6orders.map Posting.products).flatten).filterMap
        (fun it => if itemKey it = some (SKey.s "A") then it.quantity else none)).sum :=
  ⟨by decide, orderSummary_sku_total c6orders (SKey.s "A") (by decide) (by decide)⟩

/-- Helper: stock items with other skus do not touch the entry of `s` for
this warehouse. -/
theorem processStockItems_not_mem (inv : Inventory) (whId : Nat) (items : List StockItem)
    (s : Nat) (h : ∀ it ∈ items, it.sku ≠ some s) :
    processStockItems inv whId items s whId = inv s whId := by
  induction items generalizing inv with
  | nil => rfl
  | cons it rest ih =>
      have hhead : processStockItem inv whId it s whId = inv s whId := by
        unfold processStockItem
        cases hsk : it.sku with
        | none => rfl
        | some s' =>
            have hne : s ≠ s' := by
              intro he
              exact h it (by simp) (by rw [hsk, he])
            simp [invInsert, hne]
      unfold processStockItems at *
      rw [List.foldl_cons, ih (processStockItem inv whId it)
        (fun it' hm => h it' (by simp [hm])), hhead]

/-- Helper: a stock page containing records for sku `s` whose count fields
are all absent leaves `(s, whId)` mapped to the all-zero record. -/
theorem processStockItems_zero (inv : Inventory) (whId : Nat) (items : List StockItem)
    (s : Nat) (hex : ∃ it ∈ items, it.sku = some s)
    (hall : ∀ it ∈ items, it.sku = some s →
      it.available_stock_count = none ∧ it.transit_stock_count = none ∧
        it.requested_stock_count = none) :
    processStockItems inv whId items s whId =
      some { available_stock_count := 0, transit_stock_count := 0,
             requested_stock_count := 0 } := by
  induction items generalizing inv with
  | nil => simp at hex
  | cons it rest ih =>
      unfold processStockItems at *
      rw [List.foldl_cons]
      by_cases hrest : ∃ it' ∈ rest, it'.sku = some s
      · exact ih _ hrest (fun it' hm hsk => hall it' (List.mem_cons_of_mem it hm) hsk)
      · have hit : it.sku = some s := by
          obtain ⟨it', hmem, hsku⟩ := hex
          rcases List.mem_cons.mp hmem with h1 | h2
          · rw [← h1]; exact hsku
          · exact absurd ⟨it', h2, hsku⟩ hrest
        have hnone := hall it (by simp) hit
        have hrest' : ∀ it' ∈ rest, it'.sku ≠ some s := by
          intro it' hm he
          exact hrest ⟨it', hm, he⟩
        have hpres := processStockItems_not_mem (processStockItem inv whId it) whId rest s hrest'
        unfold processStockItems at hpres
        rw [hpres]
        simp [processStockItem, hit, invInsert, hnone.1, hnone.2.1, hnone.2.2]

/-- A line item with a key but no quantity field, for C2. -/
def c2item : OrderItem := { offer_id := some "A", sku := none, quantity := none }

/-- Counterexample to C2 as stated: a line item with key "A" and a missing
quantity contributes 1 (not 0) to the order total of "A". -/
theorem orderSummary_missing_quantity_counterexample :
    orderSummary [{ products := [c2item] }] (SKey.s "A") = 1 ∧
      orderSummary [{ products := [c2item] }] (SKey.s "A") ≠ 0 := by decide

/-- Claim C2 (amended): the three stock count fields missing from a stock
record default to 0 in the inventory map; a missing quantity on an order
line item contributes 1 (the script's `item.get("quantity", 1)`) to that
sku's order total. -/
theorem stock_defaults_and_order_quantity_default :
    (∀ (inv : Inventory) (whId : Nat) (items : List StockItem) (s : Nat),
       (∃ it ∈ items, it.sku = some s) →
       (∀ it ∈ items, it.sku = some s →
          it.available_stock_count = none ∧ it.transit_stock_count = none ∧
            it.requested_stock_count = none) →
       processStockItems inv whId items s whId =
         some { available_stock_count := 0, transit_stock_count := 0,
                requested_stock_count := 0 }) ∧
    (∀ (orders : List Posting) (it : OrderItem) (k : SKey),
       itemKey it = some k → k.truthy → it.quantity = none →
       orderSummary (orders ++ [{ products := [it] }]) k = orderSummary orders k + 1) := by
  constructor
  · intro inv whId items s hex hall
    exact processStockItems_zero inv whId items s hex hall
  · intro orders it k hik hk hq
    unfold orderSummary
    rw [List.foldl_append]
    simp only [List.foldl_cons, List.foldl_nil]
    rw [addOrderItem_apply _ it k hk]
    simp [matchContribution, hik, hq]

/-- Witness for C2 (amended) at a concrete input. -/
theorem stock_defaults_and_order_quantity_default_witness :
    orderSummary ([] ++ [{ products := [c2item] }]) (SKey.s "A") =
      orderSummary [] (SKey.s "A") + 1 :=
  stock_defaults_and_order_quantity_default.2 [] c2item (SKey.s "A") (by decide) (by decide) rfl

/-- Metadata map for the C1 counterexample: one known product, sku 1. -/
def c1meta : Nat → Option MetaEntry := fun s => if s = 1 then some ⟨"P", "A"⟩ else none

/-- Inventory for the C1 counterexample: no stock record at all. -/
def c1inv : Inventory := fun _ _ => none

/-- Cluster for the C1 counterexample: one logistic cluster with one
warehouse, id 7. -/
def c1cluster : Cluster := ⟨"C", [⟨[⟨some 7, none, "W"⟩]⟩]⟩

/-- Counterexample to C1 as stated: sku 1 is a known product and
warehouse 7 appears in the cluster, the stock record for (1, 7) is absent
from the inventory map, yet the cluster sheet contains no row at all (so
in particular no highlighted row with quantity 0): the export filters the
sku out and then skips the recordless warehouse entirely. -/
theorem inventory_export_zero_rows_counterexample :
    c1inv 1 7 = none ∧ (1 : Nat) ∈ ([1] : List Nat) ∧
      clusterRows [1] c1meta c1inv c1cluster = [] := by decide

/-- Claim C1 (amended): a (sku, warehouse) pair whose stock record is
absent from the inventory map produces no product row at all for that
warehouse, and a present record with `available_stock_count = 0` renders
as a row showing quantity 0 with zero-fill highlighting. -/
theorem inventory_export_zero_handling :
    ∀ (metaKeys : List Nat) (meta : Nat → Option MetaEntry) (inv : Inventory) (whId sku : Nat),
      sku ∈ metaKeys →
      ((inv sku whId = none → ∀ row ∈ warehouseRows metaKeys meta inv whId, row.sku ≠ sku) ∧
       (∀ rec, inv sku whId = some rec → rec.available_stock_count = 0 →
          ∃ row ∈ warehouseRows metaKeys meta inv whId,
            row.sku = sku ∧ row.available = 0 ∧ row.highlighted = true)) := by
  intro metaKeys meta inv whId sku hmem
  constructor
  · intro hnone row hrow hsku
    unfold warehouseRows at hrow
    obtain ⟨s', hs', hrow_eq⟩ := List.mem_map.mp hrow
    have hs'' : s' ∈ skusInWh metaKeys inv whId := List.mem_mergeSort.mp hs'
    have hsome : (inv s' whId).isSome := by
      have := List.mem_filter.mp hs''
      simpa using this.2
    have : s' = sku := by rw [← hrow_eq] at hsku; exact hsku
    rw [this, hnone] at hsome
    simp at hsome
  · intro rec hrec havail
    have hin : sku ∈ skusInWh metaKeys inv whId := by
      apply List.mem_filter.mpr
      refine ⟨hmem, ?_⟩
      simp [hrec]
    refine ⟨buildProductRow meta inv whId sku, ?_, rfl, ?_, ?_⟩
    · unfold warehouseRows
      exact List.mem_map_of_mem _ (List.mem_mergeSort.mpr hin)
    · simp [buildProductRow, stockFieldOf, hrec, havail]
    · simp [buildProductRow, stockFieldOf, hrec, havail]

/-- Metadata map for the C1 witness: two known products. -/
def c1wmeta : Nat → Option MetaEntry := fun s =>
  if s = 1 then some ⟨"P1", "A1"⟩ else if s = 2 then some ⟨"P2", "A2"⟩ else none

/-- Inventory for the C1 witness: sku 1 has a record with zero available
stock at warehouse 7; sku 2 has no record. -/
def c1winv : Inventory := fun s w => if s = 1 ∧ w = 7 then some ⟨0, 3, 4⟩ else none

/-- Witness for C1 (amended) at a concrete input. -/
theorem inventory_export_zero_handling_witness :
    ∃ row ∈ warehouseRows [1, 2] c1wmeta c1winv 7,
      row.sku = 1 ∧ row.available = 0 ∧ row.highlighted = true :=
  (inventory_export_zero_handling [1, 2] c1wmeta c1winv 7 1 (by decide)).2 ⟨0, 3, 4⟩ rfl rfl

/-- Helper: extending an accumulator through a fold of appends appends the
flattened mapped lists. -/
theorem foldl_append_eq {α β : Type} (f : α → List β) (l : List α) (acc : List β) :
    l.foldl (fun a x => a ++ f x) acc = acc ++ (l.map f).flatten := by
  induction l generalizing acc with
  | nil => simp
  | cons x rest ih => simp [ih, List.append_assoc]

/-- The warehouse occurring under two different clusters, for C3. -/
def c3wh : Warehouse := ⟨some 5, none, "W"⟩

/-- Cluster list for the C3 counterexample: warehouse 5 occurs under both
clusters. -/
def c3clusters : List Cluster := [⟨"A", [⟨[c3wh]⟩]⟩, ⟨"B", [⟨[c3wh]⟩]⟩]

/-- Counterexample to C3 as stated: with the same warehouse under two
clusters, its id appears twice in the flattened list the stock loop
iterates over — the flattening does not deduplicate. -/
theorem gatherWarehouses_duplicate_counterexample :
    ((gatherWarehouses c3clusters).filterMap warehouseIdOf).count 5 = 2 ∧
      ¬ ((gatherWarehouses c3clusters).filterMap warehouseIdOf).Nodup := by decide

/-- Claim C3 (amended): the gatherer flattens the cluster list into the
plain concatenation of all nested warehouse lists in order, without
deduplication; a warehouse occurring under several clusters or logistic
clusters appears once per occurrence in the list the per-warehouse stock
loop iterates over. -/
theorem gatherWarehouses_flattening (clusters : List Cluster) :
    gatherWarehouses clusters =
      (clusters.map
        (fun cl => (cl.logistic_clusters.map (fun lc => lc.warehouses)).flatten)).flatten := by
  unfold gatherWarehouses
  have h : ∀ (cl : Cluster) (acc : List Warehouse),
      cl.logistic_clusters.foldl (fun acc2 lc => acc2 ++ lc.warehouses) acc =
        acc ++ (cl.logistic_clusters.map (fun lc => lc.warehouses)).flatten := by
    intro cl acc
    exact foldl_append_eq _ _ _
  simp only [h]
  exact foldl_append_eq _ _ _

/-- The sizes of consecutive batches of `MAX_INFO_BATCH` covering `n`
ids. -/
def chunkSizes (n : Nat) : List Nat :=
  if n = 0 then [] else min MAX_INFO_BATCH n :: chunkSizes (n - MAX_INFO_BATCH)
termination_by n
decreasing_by
  simp only [MAX_INFO_BATCH]
  omega

/-- Helper: invariants of the `get_product_info` batching loop started at
index `i`: the chunks sent concatenate to the unprocessed suffix, each
chunk is non-empty and within the batch limit, the returned items are the
per-chunk results concatenated in order, and the chunk sizes follow
`chunkSizes`. -/
theorem getProductInfoFrom_spec (fetch : List Nat → InfoResponse) (ids : List Nat) (i : Nat) :
    ((getProductInfoFrom fetch ids i).2.flatten = ids.drop i) ∧
    (∀ c ∈ (getProductInfoFrom fetch ids i).2, c ≠ [] ∧ c.length ≤ MAX_INFO_BATCH) ∧
    ((getProductInfoFrom fetch ids i).1 =
      ((getProductInfoFrom fetch ids i).2.map (fun c => extractInfoItems (fetch c))).flatten) ∧
    ((getProductInfoFrom fetch ids i).2.map List.length = chunkSizes (ids.length - i)) := by
  refine getProductInfoFrom.induct fetch ids
    (fun j =>
      ((getProductInfoFrom fetch ids j).2.flatten = ids.drop j) ∧
      (∀ c ∈ (getProductInfoFrom fetch ids j).2, c ≠ [] ∧ c.length ≤ MAX_INFO_BATCH) ∧
      ((getProductInfoFrom fetch ids j).1 =
        ((getProductInfoFrom fetch ids j).2.map (fun c => extractInfoItems (fetch c))).flatten) ∧
      ((getProductInfoFrom fetch ids j).2.map List.length = chunkSizes (ids.length - j)))
    ?_ ?_ i
  · intro x hx ih
    obtain ⟨ih1, ih2, ih3, ih4⟩ := ih
    rw [getProductInfoFrom]
    simp only [dif_pos hx]
    refine ⟨?_, ?_, ?_, ?_⟩
    · simp only [List.flatten_cons, ih1]
      have hd : List.drop (x + MAX_INFO_BATCH) ids =
          List.drop MAX_INFO_BATCH (List.drop x ids) := by
        rw [List.drop_drop, Nat.add_comm]
      rw [hd]
      exact List.take_append_drop _ _
    · intro c hc
      rcases List.mem_cons.mp hc with h1 | h2
      · subst h1
        refine ⟨?_, List.length_take_le _ _⟩
        intro hemp
        have hl : ((ids.drop x).take MAX_INFO_BATCH).length = 0 := by rw [hemp]; rfl
        rw [List.length_take, List.length_drop] at hl
        simp only [MAX_INFO_BATCH] at hl
        omega
      · exact ih2 c h2
    · simp only [List.map_cons, List.flatten_cons, ih3]
    · simp only [List.map_cons, ih4]
      conv_rhs => rw [chunkSizes]
      rw [if_neg (by omega)]
      have e1 : ((ids.drop x).take MAX_INFO_BATCH).length =
          min MAX_INFO_BATCH (ids.length - x) := by
        rw [List.length_take, List.length_drop]
      have e2 : ids.length - (x + MAX_INFO_BATCH) = ids.length - x - MAX_INFO_BATCH := by
        omega
      rw [e1, e2]
  · intro x hx
    rw [getProductInfoFrom]
    simp only [dif_neg hx]
    refine ⟨?_, by simp, by simp, ?_⟩
    · simp [List.drop_eq_nil_of_le (Nat.le_of_not_lt hx)]
    · rw [chunkSizes, if_pos (by omega)]
      simp

/-- Claim C7: `get_product_info` splits the id list into consecutive
chunks of at most 1000 ids, issues exactly one request per chunk, and
returns the concatenation of the per-chunk results preserving order; 2500
ids issue exactly 3 batch requests of sizes 1000, 1000 and 500. -/
theorem get_product_info_batching :
    (∀ (fetch : List Nat → InfoResponse) (ids : List Nat),
        ((get_product_info fetch ids).2.flatten = ids) ∧
        (∀ c ∈ (get_product_info fetch ids).2, c ≠ [] ∧ c.length ≤ MAX_INFO_BATCH) ∧
        ((get_product_info fetch ids).1 =
          ((get_product_info fetch ids).2.map (fun c => extractInfoItems (fetch c))).flatten)) ∧
    (∀ (fetch : List Nat → InfoResponse) (ids : List Nat), ids.length = 2500 →
        (get_product_info fetch ids).2.map List.length = [1000, 1000, 500]) := by
  constructor
  · intro fetch ids
    have h := getProductInfoFrom_spec fetch ids 0
    exact ⟨by simpa [get_product_info] using h.1, h.2.1, h.2.2.1⟩
  · intro fetch ids hlen
    have h := (getProductInfoFrom_spec fetch ids 0).2.2.2
    rw [get_product_info, h, hlen]
    norm_num
    rw [chunkSizes]
    norm_num [MAX_INFO_BATCH]
    rw [chunkSizes]
    norm_num [MAX_INFO_BATCH]
    rw [chunkSizes]
    norm_num [MAX_INFO_BATCH]
    rw [chunkSizes]
    norm_num [MAX_INFO_BATCH]

/-- Witness for C7 at a concrete input: 2500 ids. -/
theorem get_product_info_batching_witness :
    (get_product_info (fun _ => { result := none, items := none })
        (List.replicate 2500 0)).2.map List.length = [1000, 1000, 500] :=
  get_product_info_batching.2 (fun _ => { result := none, items := none })
    (List.replicate 2500 0) (by rw [List.length_replicate])

/-- Helper: a cursor-loop run against a response sequence whose
intermediate cursors are non-empty and whose last cursor is empty
accumulates all pages and sends `lid` followed by each returned cursor
but the last. -/
theorem listProductsLoop_run (responses : List ProductListResponse) :
    ∀ (lid : String), responses ≠ [] →
      (∀ r ∈ responses.dropLast, pageCursorOf r ≠ "") →
      (∀ r ∈ responses.getLast?, pageCursorOf r = "") →
      listProductsLoop responses lid =
        ((responses.map pageItemsOf).flatten, lid :: responses.dropLast.map pageCursorOf) := by
  induction responses with
  | nil => intro lid h; exact absurd rfl h
  | cons r rest ih =>
      intro lid _ hmid hlast
      cases rest with
      | nil =>
          have hcur : pageCursorOf r = "" := by
            have := hlast r
            simp [List.getLast?] at this
            exact this
          simp [listProductsLoop, hcur]
      | cons r2 rest2 =>
          have hcur : pageCursorOf r ≠ "" := by
            apply hmid
            simp [List.dropLast]
          have hmid' : ∀ x ∈ (r2 :: rest2).dropLast, pageCursorOf x ≠ "" := by
            intro x hx
            apply hmid
            simp [List.dropLast, hx]
          have hlast' : ∀ x ∈ (r2 :: rest2).getLast?, pageCursorOf x = "" := by
            intro x hx
            apply hlast
            simpa [List.getLast?_cons_cons] using hx
          rw [listProductsLoop]
          simp only [if_neg hcur]
          rw [ih (pageCursorOf r) (by simp) hmid' hlast']
          simp [List.dropLast]

/-- Claim C8: for every response sequence of pages terminated by an empty
`last_id` cursor (all earlier cursors non-empty), `list_products` passes
the server's cursor back on each subsequent request, stops exactly at the
empty cursor, and returns the concatenation of all pages' items in order,
with length equal to the sum of the page sizes and one request per
page. -/
theorem list_products_pagination (responses : List ProductListResponse)
    (hne : responses ≠ [])
    (hmid : ∀ r ∈ responses.dropLast, pageCursorOf r ≠ "")
    (hlast : ∀ r ∈ responses.getLast?, pageCursorOf r = "") :
    list_products responses =
      ((responses.map pageItemsOf).flatten, "" :: responses.dropLast.map pageCursorOf) ∧
    (list_products responses).1.length = (responses.map (fun r => (pageItemsOf r).length)).sum ∧
    (list_products responses).2.length = responses.length := by
  have h := listProductsLoop_run responses "" hne hmid hlast
  rw [list_products] at *
  refine ⟨h, ?_, ?_⟩
  · rw [h]
    simp [List.length_flatten, List.map_map, Function.comp_def]
  · rw [h]
    have : responses.length ≠ 0 := by simpa [List.length_eq_zero] using hne
    simp [List.length_dropLast]
    omega

/-- Concrete two-page response sequence for the C8 witness. -/
def c8responses : List ProductListResponse :=
  [{ result := some { items := some [⟨1⟩, ⟨2⟩], last_id := some "c1" } },
   { result := some { items := some [⟨3⟩], last_id := some "" } }]

/-- Witness for C8 at a concrete input. -/
theorem list_products_pagination_witness :
    list_products c8responses =
      ((c8responses.map pageItemsOf).flatten, "" :: c8responses.dropLast.map pageCursorOf) ∧
    (list_products c8responses).1.length =
      (c8responses.map (fun r => (pageItemsOf r).length)).sum ∧
    (list_products c8responses).2.length = c8responses.length :=
  list_products_pagination c8responses (by decide) (by decide) (by decide)

/-- Claim C9: if either required credential (after its documented
fallback variables) resolves to an absent or empty value, the run fails
with the configuration error and zero requests reach the transport,
whatever the pipeline would have done. -/
theorem config_error_before_requests {α : Type} (env : String → Option String)
    (pipeline : String → String → α × Nat)
    (h : (resolvedClientId env = none ∨ resolvedClientId env = some "") ∨
         (resolvedApiKey env = none ∨ resolvedApiKey env = some "")) :
    (runMain env pipeline).2 = 0 ∧ ∃ e, (runMain env pipeline).1 = Except.error e := by
  by_cases hc : resolvedClientId env = none ∨ resolvedClientId env = some ""
  · exact ⟨by simp [runMain, require_env, hc],
      "Missing required environment variable OZON_CLIENT_ID. Put it in your .env or shell export.",
      by simp [runMain, require_env, hc]⟩
  · have hk : resolvedApiKey env = none ∨ resolvedApiKey env = some "" := by tauto
    exact ⟨by simp [runMain, require_env, hc, hk],
      "Missing required environment variable OZON_API_KEY. Put it in your .env or shell export.",
      by simp [runMain, require_env, hc, hk]⟩

/-- Witness for C9 at a concrete input: an empty environment. -/
theorem config_error_before_requests_witness :
    (runMain (fun _ => none) (fun _ _ => ((0 : Nat), 5))).2 = 0 ∧
      ∃ e, (runMain (fun _ => none) (fun _ _ => ((0 : Nat), 5))).1 = Except.error e :=
  config_error_before_requests (fun _ => none) (fun _ _ => (0, 5)) (Or.inl (Or.inl rfl))

end OzonSeller
